import Mathlib

/-
Verification of the mini-calendar-tool repository: a shallow embedding of
calendar_logic.py, holidays.py, settings.py and the pure parts of
calendar_window.py, with theorems about the claimed properties.
-/

namespace MiniCal

/-! ### Gregorian calendar arithmetic (as used by Python's datetime/calendar) -/

/-- Gregorian leap-year test ( matches Python calendar.isleap). -/
def isLeap (y : Nat) : Bool :=
  y % 4 == 0 && (y % 100 != 0 || y % 400 == 0)

/-- Number of days in a month ( matches Python calendar.monthrange day count). -/
def daysInMonth (y m : Nat) : Nat :=
  if m = 2 then (if isLeap y then 29 else 28)
  else if m = 4 ∨ m = 6 ∨ m = 9 ∨ m = 11 then 30
  else 31

/-- Days in all years before year y (proleptic Gregorian, year 1 is first). -/
def daysBeforeYear (y : Nat) : Nat :=
  (y - 1) * 365 + (y - 1) / 4 - (y - 1) / 100 + (y - 1) / 400

/-- Days in year y strictly before month m (m counted from 1). -/
def daysBeforeMonth (y : Nat) : Nat → Nat
  | 0 => 0
  | 1 => 0
  | m + 1 => daysBeforeMonth y m + daysInMonth y m

/-- Proleptic Gregorian ordinal of a date; date (1,1,1) has ordinal 1
( matches Python date.toordinal). -/
def toOrdinal (y m d : Nat) : Nat :=
  daysBeforeYear y + daysBeforeMonth y m + d

/-- Day of week, Monday = 0 .. Sunday = 6 ( matches Python date.weekday). -/
def weekday (y m d : Nat) : Nat :=
  (toOrdinal y m d + 6) % 7

/-- ISO weekday, Monday = 1 .. Sunday = 7 ( matches Python date.isoweekday). -/
def isoWeekday (y m d : Nat) : Nat :=
  weekday y m d + 1

/-! ### month_grid from calendar_logic.py

Python's Calendar(firstweekday=0).itermonthdays yields, for a month whose
first day falls on weekday w (Monday = 0) and which has n days: w zeros,
then 1..n, then trailing zeros completing the last week.  month_grid turns
every value into a cell (0 becomes None), groups cells into rows of 7 and
pads with empty rows until there are exactly 6 rows. -/

/-- The flat cell sequence produced by itermonthdays for parameters (w, n):
w leading empties, days 1..n, trailing empties to a multiple of 7. -/
def cellsOf (w n : Nat) : List (Option Nat) :=
  List.replicate w none
    ++ (List.range n).map (fun i => some (i + 1))
    ++ List.replicate ((7 - (w + n) % 7) % 7) none

/-- Group a flat cell list into weeks of 7; the fuel argument equals the
list length at the top call, which always suffices because every step
consumes at least one element. -/
def chunksAux : Nat → List (Option Nat) → List (List (Option Nat))
  | 0, _ => []
  | _, [] => []
  | fuel + 1, xs => xs.take 7 :: chunksAux fuel (xs.drop 7)

/-- Group a flat cell list into weeks of 7. -/
def chunkWeeks (xs : List (Option Nat)) : List (List (Option Nat)) :=
  chunksAux xs.length xs

/-- The 6-row month grid as a function of (first weekday, day count). -/
def gridOf (w n : Nat) : List (List (Option Nat)) :=
  let g := chunkWeeks (cellsOf w n)
  g ++ List.replicate (6 - g.length) (List.replicate 7 none)

/-- month_grid from calendar_logic.py: 6 rows of 7 optional day numbers,
weeks starting Monday. -/
def month_grid (year month : Nat) : List (List (Option Nat)) :=
  gridOf (weekday year month 1) (daysInMonth year month)

/-! ### prev_month / next_month from calendar_logic.py -/

/-- prev_month from calendar_logic.py (year is an unbounded integer). -/
def prev_month : Int × Int → Int × Int
  | (y, m) => if m = 1 then (y - 1, 12) else (y, m - 1)

/-- next_month from calendar_logic.py. -/
def next_month : Int × Int → Int × Int
  | (y, m) => if m = 12 then (y + 1, 1) else (y, m + 1)

/-! ### Dates (Python datetime.date, proleptic Gregorian) -/

/-- A calendar date, as Python datetime.date. -/
structure Date where
  year : Nat
  month : Nat
  day : Nat
deriving DecidableEq, Repr

/-- Ordinal of a date ( matches Python date.toordinal). -/
def dateOrd (d : Date) : Nat :=
  toOrdinal d.year d.month d.day

/-- Lexicographic order on dates ( matches Python date comparison). -/
def dateLe (a b : Date) : Bool :=
  (a.year, a.month, a.day) ≤ (b.year, b.month, b.day)

/-- The next calendar day. -/
def succDay (d : Date) : Date :=
  if d.day < daysInMonth d.year d.month then ⟨d.year, d.month, d.day + 1⟩
  else if d.month < 12 then ⟨d.year, d.month + 1, 1⟩
  else ⟨d.year + 1, 1, 1⟩

/-- The previous calendar day. -/
def predDay (d : Date) : Date :=
  if 1 < d.day then ⟨d.year, d.month, d.day - 1⟩
  else if 1 < d.month then ⟨d.year, d.month - 1, daysInMonth d.year (d.month - 1)⟩
  else ⟨d.year - 1, 12, 31⟩

/-- Add n days to a date. -/
def addDaysN (d : Date) : Nat → Date
  | 0 => d
  | k + 1 => succDay (addDaysN d k)

/-- Subtract n days from a date. -/
def subDaysN (d : Date) : Nat → Date
  | 0 => d
  | k + 1 => predDay (subDaysN d k)

/-- Add a signed number of days ( matches Python date + timedelta(days = k)). -/
def addDays (d : Date) (k : Int) : Date :=
  if 0 ≤ k then addDaysN d k.toNat else subDaysN d (-k).toNat

/-! ### holidays.py -/

/-- The anonymous Gregorian Easter algorithm from holidays.py (every
intermediate Python value is non-negative, so Nat arithmetic coincides
with Python's). -/
def easter (year : Nat) : Date :=
  let a := year % 19
  let b := year / 100
  let c := year % 100
  let d := b / 4
  let e := b % 4
  let f := (b + 8) / 25
  let g := (b - f + 1) / 3
  let h := (19 * a + b - d - g + 15) % 30
  let i := c / 4
  let k := c % 4
  let el := (32 + 2 * e + 2 * i - h - k) % 7
  let m := (a + 11 * h + 22 * el) / 451
  let month := (h + el - 7 * m + 114) / 31
  let day := (h + el - 7 * m + 114) % 31
  ⟨year, month, day + 1⟩

/-- Generator _fixed from holidays.py. -/
def genFixed (m d : Nat) : Nat → List Date :=
  fun year => [⟨year, m, d⟩]

/-- Generator _fixed_range from holidays.py. -/
def genFixedRange (m d n : Nat) : Nat → List Date :=
  fun year => (List.range n).map (fun i => addDays ⟨year, m, d⟩ (i : Int))

/-- Generator _easter_rel from holidays.py. -/
def genEasterRel (offset : Int) : Nat → List Date :=
  fun year => [addDays (easter year) offset]

/-- Lookup in a year-indexed table (Python dict.get on a dict whose keys
are all distinct years). -/
def tableGet : List (Nat × Nat × Nat) → Nat → Option (Nat × Nat)
  | [], _ => none
  | (k, m, d) :: rest, y => if y = k then some (m, d) else tableGet rest y

/-- Generator _from_table from holidays.py. -/
def genFromTable (table : List (Nat × Nat × Nat)) : Nat → List Date :=
  fun year =>
    match tableGet table year with
    | some (m, d) => [⟨year, m, d⟩]
    | none => []

/-- Generator _from_table_multi from holidays.py. -/
def genFromTableMulti (table : List (Nat × Nat × Nat)) (n : Nat) : Nat → List Date :=
  fun year =>
    match tableGet table year with
    | some (m, d) => (List.range n).map (fun i => addDays ⟨year, m, d⟩ (i : Int))
    | none => []

/-- The _SPRING_FESTIVAL lookup table (2024 to 2036) from holidays.py. -/
def springFestivalTable : List (Nat × Nat × Nat) :=
  [(2024, 2, 10), (2025, 1, 29), (2026, 2, 17), (2027, 2, 6),
   (2028, 1, 26), (2029, 2, 13), (2030, 2, 3), (2031, 1, 23),
   (2032, 2, 11), (2033, 1, 31), (2034, 2, 19), (2035, 2, 8),
   (2036, 1, 28)]

/-- The _QINGMING lookup table from holidays.py. -/
def qingmingTable : List (Nat × Nat × Nat) :=
  [(2024, 4, 4), (2025, 4, 4), (2026, 4, 5), (2027, 4, 5),
   (2028, 4, 4), (2029, 4, 4), (2030, 4, 5), (2031, 4, 5),
   (2032, 4, 4), (2033, 4, 4), (2034, 4, 5), (2035, 4, 5),
   (2036, 4, 4)]

/-- The _DRAGON_BOAT lookup table from holidays.py. -/
def dragonBoatTable : List (Nat × Nat × Nat) :=
  [(2024, 6, 10), (2025, 5, 31), (2026, 6, 19), (2027, 6, 9),
   (2028, 5, 28), (2029, 6, 16), (2030, 6, 5), (2031, 6, 24),
   (2032, 6, 13), (2033, 6, 2), (2034, 6, 22), (2035, 6, 11),
   (2036, 5, 31)]

/-- The _MID_AUTUMN lookup table from holidays.py. -/
def midAutumnTable : List (Nat × Nat × Nat) :=
  [(2024, 9, 17), (2025, 10, 6), (2026, 9, 25), (2027, 9, 15),
   (2028, 10, 3), (2029, 9, 22), (2030, 9, 12), (2031, 10, 1),
   (2032, 9, 19), (2033, 9, 8), (2034, 9, 28), (2035, 9, 16),
   (2036, 9, 5)]

/-- One entry of the HOLIDAYS registry: (key, name, country, dates_fn). -/
structure HolidayEntry where
  key : String
  name : String
  country : String
  dates : Nat → List Date

/-- The HOLIDAYS registry from holidays.py, in declaration order. -/
def HOLIDAYS : List HolidayEntry :=
  [⟨"ch_neujahr", "Neujahr", "CH", genFixed 1 1⟩,
   ⟨"ch_berchtoldstag", "Berchtoldstag", "CH", genFixed 1 2⟩,
   ⟨"ch_karfreitag", "Karfreitag", "CH", genEasterRel (-2)⟩,
   ⟨"ch_ostermontag", "Ostermontag", "CH", genEasterRel 1⟩,
   ⟨"ch_tag_der_arbeit", "Tag der Arbeit", "CH", genFixed 5 1⟩,
   ⟨"ch_auffahrt", "Auffahrt", "CH", genEasterRel 39⟩,
   ⟨"ch_pfingstmontag", "Pfingstmontag", "CH", genEasterRel 49⟩,
   ⟨"ch_bundesfeier", "Bundesfeier", "CH", genFixed 8 1⟩,
   ⟨"ch_weihnachten", "Weihnachten", "CH", genFixed 12 25⟩,
   ⟨"de_neujahr", "Neujahr", "DE", genFixed 1 1⟩,
   ⟨"de_karfreitag", "Karfreitag", "DE", genEasterRel (-2)⟩,
   ⟨"de_ostermontag", "Ostermontag", "DE", genEasterRel 1⟩,
   ⟨"de_tag_der_arbeit", "Tag der Arbeit", "DE", genFixed 5 1⟩,
   ⟨"de_christi_himmelfahrt", "Christi Himmelfahrt", "DE", genEasterRel 39⟩,
   ⟨"de_pfingstmontag", "Pfingstmontag", "DE", genEasterRel 49⟩,
   ⟨"de_tag_dt_einheit", "Tag der Deutschen Einheit", "DE", genFixed 10 3⟩,
   ⟨"de_weihnachten1", "1. Weihnachtstag", "DE", genFixed 12 25⟩,
   ⟨"de_weihnachten2", "2. Weihnachtstag", "DE", genFixed 12 26⟩,
   ⟨"cn_neujahr", "New Year's Day", "CN", genFixed 1 1⟩,
   ⟨"cn_spring_festival", "Spring Festival", "CN", genFromTableMulti springFestivalTable 3⟩,
   ⟨"cn_qingming", "Qingming Festival", "CN", genFromTable qingmingTable⟩,
   ⟨"cn_labour_day", "Labour Day", "CN", genFixed 5 1⟩,
   ⟨"cn_dragon_boat", "Dragon Boat Festival", "CN", genFromTable dragonBoatTable⟩,
   ⟨"cn_mid_autumn", "Mid-Autumn Festival", "CN", genFromTable midAutumnTable⟩,
   ⟨"cn_national_day", "National Day", "CN", genFixedRange 10 1 3⟩]

/-- _BY_KEY.get from holidays.py; registry keys are distinct, so first
match equals Python dict lookup. -/
def byKeyGet (k : String) : Option HolidayEntry :=
  HOLIDAYS.find? (fun e => e.key == k)

/-- dict.setdefault(d, []).append(v) on an insertion-ordered mapping. -/
def addEntry : List (Date × List (String × String)) → Date → String × String →
    List (Date × List (String × String))
  | [], d, v => [(d, [v])]
  | (d', vs) :: rest, d, v =>
      if d' = d then (d', vs ++ [v]) :: rest else (d', vs) :: addEntry rest d v

/-- holidays_for_year from holidays.py; the enabled keys are given as the
iteration order of the Python set. -/
def holidays_for_year (year : Nat) (enabledKeys : List String) :
    List (Date × List (String × String)) :=
  enabledKeys.foldl
    (fun acc key =>
      match byKeyGet key with
      | none => acc
      | some e => (e.dates year).foldl (fun a d => addEntry a d (e.name, e.country)) acc)
    []

/-! ### Footer text from calendar_window.py -/

/-- Zero-padded two-digit decimal ( matches strftime %d / %m). -/
def pad2 (n : Nat) : String :=
  if n < 10 then "0" ++ toString n else toString n

/-- strftime("%d.%m") of a date. -/
def fmtDM (d : Date) : String :=
  pad2 d.day ++ "." ++ pad2 d.month

/-- strftime("%d.%m.%Y") of a date (years of interest are four-digit). -/
def fmtDMY (d : Date) : String :=
  pad2 d.day ++ "." ++ pad2 d.month ++ "." ++ toString d.year

/-- Python ", ".join. -/
def joinComma : List String → String
  | [] => ""
  | [x] => x
  | x :: y :: rest => x ++ ", " ++ joinComma (y :: rest)

/-- _sel_range from calendar_window.py: the normalized (low, high) pair,
none unless both endpoints are set. -/
def sel_range (selStart selEnd : Option Date) : Option (Date × Date) :=
  match selStart, selEnd with
  | some s, some e => some (if dateLe s e then (s, e) else (e, s))
  | _, _ => none

/-- _footer_text from calendar_window.py, with today's date made an
explicit argument. -/
def footer_text (selStart selEnd : Option Date) (today : Date) : String :=
  let todayStr := "Today: " ++ fmtDMY today
  match sel_range selStart selEnd with
  | none => todayStr
  | some (lo, hi) =>
    if lo = hi then todayStr
    else
      let totalDays := (dateOrd hi - dateOrd lo) + 1
      let fullWeeks := totalDays / 7
      let remDays := totalDays % 7
      let parts :=
        (if fullWeeks ≠ 0 then
          [toString fullWeeks ++ " week" ++ (if fullWeeks ≠ 1 then "s" else "")]
         else []) ++
        (if remDays ≠ 0 then
          [toString remDays ++ " day" ++ (if remDays ≠ 1 then "s" else "")]
         else [])
      let rangeStr := fmtDM lo ++ " → " ++ fmtDM hi
      rangeStr ++ ":  " ++ toString totalDays ++ " days  (" ++ joinComma parts
        ++ ")     " ++ todayStr

/-- The footer as the specification words it, case by case: plain today
string when there is no range or it is a single day; otherwise the range,
the inclusive day count, and a parenthesized decomposition into whole
weeks and remainder days that omits a zero clause and pluralizes each unit
exactly when its count differs from 1. -/
def footerSpecText (selStart selEnd : Option Date) (today : Date) : String :=
  let todayStr := "Today: " ++ fmtDMY today
  match sel_range selStart selEnd with
  | none => todayStr
  | some (lo, hi) =>
    if lo = hi then todayStr
    else
      let n := (dateOrd hi - dateOrd lo) + 1
      let w := n / 7
      let d := n % 7
      let weekClause := toString w ++ (if w = 1 then " week" else " weeks")
      let dayClause := toString d ++ (if d = 1 then " day" else " days")
      let inner :=
        if w = 0 then dayClause
        else if d = 0 then weekClause
        else weekClause ++ ", " ++ dayClause
      fmtDM lo ++ " → " ++ fmtDM hi ++ ":  " ++ toString n ++ " days  ("
        ++ inner ++ ")     " ++ todayStr

/-! ### Substring test (used to state "the summary contains ...") -/

/-- Boolean prefix test on character lists. -/
def startsWithB : List Char → List Char → Bool
  | [], _ => true
  | _ :: _, [] => false
  | a :: as, b :: bs => a == b && startsWithB as bs

/-- Boolean substring test: needle occurs contiguously in hay. -/
def containsSub (needle : List Char) : List Char → Bool
  | [] => startsWithB needle []
  | b :: bs => startsWithB needle (b :: bs) || containsSub needle bs

/-- Substring test on strings. -/
def strContains (hay needle : String) : Bool :=
  containsSub needle.data hay.data

/-! ### Auto-fit resize from calendar_window.py -/

/-- The window and layout state read and written by _handle_resize.
rebuildCount and persistCount record how many times _rebuild_months and
_persist_size have been called. -/
structure ResizeState where
  savedWidth : Int
  savedHeight : Int
  monthWidth : Int
  monthHeight : Int
  gridCols : Int
  gridRows : Int
  savedGridCols : Option Int
  savedGridRows : Option Int
  rebuildCount : Nat
  persistCount : Nat
deriving DecidableEq, Repr

/-- _handle_resize from calendar_window.py: columns and rows from the
saved window size with margins 24 and 50 (Python // is floor division,
Int.fdiv here), updating the grid and rebuilding only when the pair
changed. -/
def handle_resize (s : ResizeState) : ResizeState :=
  let cols := max 1 ((s.savedWidth - 24).fdiv s.monthWidth)
  let rows := max 1 ((s.savedHeight - 50).fdiv s.monthHeight)
  if cols ≠ s.gridCols ∨ rows ≠ s.gridRows then
    { s with gridCols := cols, gridRows := rows,
             savedGridCols := some cols, savedGridRows := some rows,
             rebuildCount := s.rebuildCount + 1,
             persistCount := s.persistCount + 1 }
  else s

/-! ### Panel pool from calendar_window.py -/

/-- A pooled month panel; gridded records whether the panel is currently
placed in the grid (frame.grid) or hidden (frame.grid_forget). -/
structure Panel where
  gridded : Bool
deriving DecidableEq, Repr

/-- The grow-pool while loop of _rebuild_months: while len < total, append
a fresh panel.  Each iteration appends exactly one panel, so fuel equal to
total - length runs the loop to completion. -/
def growPoolAux : Nat → List Panel → Nat → List Panel
  | 0, panels, _ => panels
  | fuel + 1, panels, total =>
      if panels.length < total then growPoolAux fuel (panels ++ [⟨false⟩]) total
      else panels

/-- Grow the panel pool to at least total slots. -/
def growPool (panels : List Panel) (total : Nat) : List Panel :=
  growPoolAux (total - panels.length) panels total

/-- The visibility passes of _rebuild_months: panels with index below
total are gridded, the rest are hidden via grid_forget. -/
def setGriddedFrom : Nat → Nat → List Panel → List Panel
  | _, _, [] => []
  | i, total, _ :: rest => ⟨decide (i < total)⟩ :: setGriddedFrom (i + 1) total rest

/-- The effect of one _rebuild_months call on the panel pool. -/
def rebuild_panels (panels : List Panel) (total : Nat) : List Panel :=
  setGriddedFrom 0 total (growPool panels total)

/-! ### Month list of _rebuild_months -/

/-- The forward enumeration loop of _rebuild_months: k consecutive months
starting at ym. -/
def monthListFrom : Int × Int → Nat → List (Int × Int)
  | _, 0 => []
  | ym, k + 1 => ym :: monthListFrom (next_month ym) k

/-- The backward walk of _rebuild_months: k steps of prev_month. -/
def stepsBack : Int × Int → Nat → Int × Int
  | ym, 0 => ym
  | ym, k + 1 => stepsBack (prev_month ym) k

/-- k steps of next_month. -/
def stepsFwd : Int × Int → Nat → Int × Int
  | ym, 0 => ym
  | ym, k + 1 => stepsFwd (next_month ym) k

/-- The month list displayed by _rebuild_months for a given center and
grid shape. -/
def rebuild_month_list (cy cm : Int) (cols rows : Nat) : List (Int × Int) :=
  let total := cols * rows
  let monthsBefore := (total - 1) / 2
  monthListFrom (stepsBack (cy, cm) monthsBefore) total

/-! ### settings.py : load_settings

The settings file holds a JSON value.  Python dicts are insertion-ordered
maps, modelled as association lists with in-place update.  A failed open
or parse (FileNotFoundError, JSONDecodeError, OSError) is modelled as the
input none. -/

/-- A JSON value as produced by json.load (floats do not occur in the
settings this program writes). -/
inductive JValue
  | null
  | bool (b : Bool)
  | num (n : Int)
  | str (s : String)
  | arr (xs : List JValue)
  | obj (kvs : List (String × JValue))

/-- Python dict assignment d[k] = v on an insertion-ordered map. -/
def dictSet (d : List (String × JValue)) (k : String) (v : JValue) :
    List (String × JValue) :=
  match d with
  | [] => [(k, v)]
  | (k', v') :: rest =>
      if k' == k then (k', v) :: rest else (k', v') :: dictSet rest k v

/-- Python dict.get(k) on an insertion-ordered map. -/
def dictGet (d : List (String × JValue)) (k : String) : Option JValue :=
  match d with
  | [] => none
  | (k', v') :: rest => if k' == k then some v' else dictGet rest k

/-- The Python operator key in stored: key membership for a dict, element
equality for a list, substring for a string, TypeError otherwise. -/
def pyIn (key : String) : JValue → Except String Bool
  | .obj kvs => .ok (kvs.any (fun kv => kv.1 == key))
  | .arr xs => .ok (xs.any (fun v => match v with | .str s => s == key | _ => false))
  | .str s => .ok (strContains s key)
  | _ => .error "TypeError: argument not iterable"

/-- The Python expression stored[key] for a string key: a value for a
dict, TypeError for every other json value. -/
def pyGetItem (v : JValue) (key : String) : Except String JValue :=
  match v with
  | .obj kvs =>
      match dictGet kvs key with
      | some x => .ok x
      | none => .error "KeyError"
  | _ => .error "TypeError: indices must be integers"

/-- isinstance(x, bool). -/
def isInstBool : JValue → Bool
  | .bool _ => true
  | _ => false

/-- isinstance(x, int); Python bool is a subclass of int. -/
def isInstInt : JValue → Bool
  | .bool _ => true
  | .num _ => true
  | _ => false

/-- isinstance(x, list). -/
def isInstList : JValue → Bool
  | .arr _ => true
  | _ => false

/-- isinstance(x, dict). -/
def isInstDict : JValue → Bool
  | .obj _ => true
  | _ => false

/-- isinstance(x, str). -/
def isInstStr : JValue → Bool
  | .str _ => true
  | _ => false

/-- The _DEFAULTS dict from settings.py (note: it has no marker_colors
key). -/
def settingsDefaults : List (String × JValue) :=
  [("dark_mode", .bool false),
   ("window_width", .null),
   ("window_height", .null),
   ("grid_cols", .null),
   ("grid_rows", .null),
   ("holidays", .arr []),
   ("holiday_colors", .obj [("CH", .str "#FF0000"), ("DE", .str "#FFD700"),
                            ("CN", .str "#4CAF50")])]

/-- load_settings from settings.py over the parsed file content; an
uncaught Python exception surfaces as Except.error. -/
def load_settings (input : Option JValue) : Except String (List (String × JValue)) := do
  match input with
  | none => pure settingsDefaults
  | some stored => do
    let mut settings := settingsDefaults
    if (← pyIn "dark_mode" stored) then
      let v ← pyGetItem stored "dark_mode"
      if isInstBool v then
        settings := dictSet settings "dark_mode" v
    for key in ["window_width", "window_height", "grid_cols", "grid_rows"] do
      if (← pyIn key stored) then
        let v ← pyGetItem stored key
        if isInstInt v then
          settings := dictSet settings key v
    if (← pyIn "holidays" stored) then
      let v ← pyGetItem stored "holidays"
      if isInstList v then
        match v with
        | .arr xs => settings := dictSet settings "holidays" (.arr (xs.filter isInstStr))
        | _ => pure ()
    if (← pyIn "holiday_colors" stored) then
      let v ← pyGetItem stored "holiday_colors"
      if isInstDict v then
        settings := dictSet settings "holiday_colors" v
    return settings

/-! ### Navigation state of CalendarWindow -/

/-- The CalendarWindow state touched by navigation and rebuilds: center
month, selection endpoints, drag flag, day markers, grid shape, the
currently displayed month list and the panel pool. -/
structure AppState where
  centerYear : Int
  centerMonth : Int
  selStart : Option Date
  selEnd : Option Date
  dragging : Bool
  dayMarkers : List (Date × String)
  gridCols : Nat
  gridRows : Nat
  currentTotalMonths : Nat
  monthList : List (Int × Int)
  panels : List Panel

/-- The state effect of _rebuild_months: recompute the displayed month
list and panel pool from center and grid shape; selection and markers are
only read. -/
def rebuild_months (s : AppState) : AppState :=
  let total := s.gridCols * s.gridRows
  { s with currentTotalMonths := total,
           monthList := rebuild_month_list s.centerYear s.centerMonth s.gridCols s.gridRows,
           panels := rebuild_panels s.panels total }

/-- _navigate from calendar_window.py. -/
def navigate (s : AppState) (direction : Int) : AppState :=
  let ym :=
    if direction < 0 then prev_month (s.centerYear, s.centerMonth)
    else next_month (s.centerYear, s.centerMonth)
  rebuild_months { s with centerYear := ym.1, centerMonth := ym.2 }

/-- _navigate_page from calendar_window.py: skip by the number of
currently displayed months. -/
def navigate_page (s : AppState) (direction : Int) : AppState :=
  let stepFn := if 0 < direction then next_month else prev_month
  let ym := (List.range s.currentTotalMonths).foldl (fun ym _ => stepFn ym)
    (s.centerYear, s.centerMonth)
  rebuild_months { s with centerYear := ym.1, centerMonth := ym.2 }

/-- _navigate_year from calendar_window.py. -/
def navigate_year (s : AppState) (direction : Int) : AppState :=
  rebuild_months { s with centerYear := s.centerYear + direction }

/-- _clear_selection from calendar_window.py. -/
def clear_selection (s : AppState) : AppState :=
  { s with selStart := none, selEnd := none, dragging := false }

/-- _go_today from calendar_window.py, with today's date explicit. -/
def go_today (s : AppState) (today : Date) : AppState :=
  rebuild_months (clear_selection
    { s with centerYear := (today.year : Int), centerMonth := (today.month : Int) })

/-- One center-month navigation request. -/
inductive NavOp
  | byMonth (direction : Int)
  | byPage (direction : Int)
  | byYear (direction : Int)

/-- Apply one navigation request to the window state. -/
def applyNav (s : AppState) : NavOp → AppState
  | .byMonth d => navigate s d
  | .byPage d => navigate_page s d
  | .byYear d => navigate_year s d

/-! ## Lemmas -/

theorem daysInMonth_bounds (y m : Nat) (h1 : 1 ≤ m) (h2 : m ≤ 12) :
    28 ≤ daysInMonth y m ∧ daysInMonth y m ≤ 31 := by
  unfold daysInMonth
  interval_cases m <;> simp <;> cases isLeap y <;> simp

theorem weekday_lt (y m d : Nat) : weekday y m d < 7 :=
  Nat.mod_lt _ (by omega)

theorem gridOf_bounded :
    ∀ w < 7, ∀ n < 32, 28 ≤ n →
      (gridOf w n).length = 6 ∧
      (∀ r ∈ gridOf w n, r.length = 7) ∧
      (gridOf w n).flatten.countP Option.isSome = n ∧
      (gridOf w n).flatten.findIdx Option.isSome = w := by
  decide

theorem monthListFrom_length (ym : Int × Int) (k : Nat) :
    (monthListFrom ym k).length = k := by
  induction k generalizing ym with
  | zero => rfl
  | succ k ih => simp [monthListFrom, ih]

theorem stepsFwd_succ_out (ym : Int × Int) (k : Nat) :
    stepsFwd ym (k + 1) = next_month (stepsFwd ym k) := by
  induction k generalizing ym with
  | zero => rfl
  | succ k ih => rw [stepsFwd, ih, stepsFwd]

theorem monthListFrom_getElem (ym : Int × Int) (k j : Nat) (hj : j < k) :
    (monthListFrom ym k)[j]? = some (stepsFwd ym j) := by
  induction k generalizing ym j with
  | zero => omega
  | succ k ih =>
    cases j with
    | zero => simp [monthListFrom, stepsFwd]
    | succ j => simpa [monthListFrom, stepsFwd] using ih (next_month ym) j (by omega)

/-- A (year, month) pair with a month in 1..12. -/
def validYM (ym : Int × Int) : Prop := 1 ≤ ym.2 ∧ ym.2 ≤ 12

theorem validYM_prev (ym : Int × Int) (h : validYM ym) : validYM (prev_month ym) := by
  obtain ⟨y, m⟩ := ym
  obtain ⟨h1, h2⟩ := h
  unfold validYM prev_month
  by_cases hm : m = 1 <;> simp [hm] <;> omega

theorem next_prev (ym : Int × Int) (h : validYM ym) :
    next_month (prev_month ym) = ym := by
  obtain ⟨y, m⟩ := ym
  obtain ⟨h1, h2⟩ := h
  unfold prev_month next_month
  by_cases hm : m = 1
  · simp [hm]
  · have hne : ¬(m - 1 = 12) := by omega
    simp [hm, hne]

theorem stepsBack_fwd (ym : Int × Int) (k : Nat) (h : validYM ym) :
    stepsFwd (stepsBack ym k) k = ym := by
  induction k generalizing ym with
  | zero => rfl
  | succ k ih =>
    rw [stepsBack, stepsFwd_succ_out, ih (prev_month ym) (validYM_prev ym h),
      next_prev ym h]

theorem growPoolAux_spec (fuel : Nat) :
    ∀ panels total, fuel = total - panels.length →
      growPoolAux fuel panels total = panels ++ List.replicate fuel ⟨false⟩ := by
  induction fuel with
  | zero => intro panels total _; simp [growPoolAux]
  | succ fuel ih =>
    intro panels total hfuel
    have hlt : panels.length < total := by omega
    rw [growPoolAux, if_pos hlt,
      ih (panels ++ [(⟨false⟩ : Panel)]) total (by simp; omega)]
    simp [List.replicate_succ]

theorem growPool_eq (panels : List Panel) (total : Nat) :
    growPool panels total = panels ++ List.replicate (total - panels.length) ⟨false⟩ :=
  growPoolAux_spec _ panels total rfl

theorem setGriddedFrom_length (l : List Panel) :
    ∀ i total, (setGriddedFrom i total l).length = l.length := by
  induction l with
  | nil => intro i total; rfl
  | cons p rest ih => intro i total; simp [setGriddedFrom, ih]

theorem setGriddedFrom_getElem (l : List Panel) :
    ∀ (i total j : Nat), (setGriddedFrom i total l)[j]? =
      l[j]?.map (fun _ => (⟨decide (i + j < total)⟩ : Panel)) := by
  induction l with
  | nil => intro i total j; rfl
  | cons p rest ih =>
    intro i total j
    cases j with
    | zero => simp [setGriddedFrom]
    | succ j => simpa [setGriddedFrom, Nat.add_right_comm] using ih (i + 1) total j

theorem rebuild_panels_length (panels : List Panel) (total : Nat) :
    (rebuild_panels panels total).length = max panels.length total := by
  rw [rebuild_panels, setGriddedFrom_length, growPool_eq]
  simp
  omega

/-! ## Claim theorems -/

/-- C2: for every valid (year, month), month_grid returns exactly 6 rows
of 7 cells each; the number of non-empty cells equals the number of days
in that month; and the (row-major, hence row-0) position of the first
non-empty cell equals the ISO weekday of day 1 minus 1, a column index
below 7 (Monday-first weeks). -/
theorem month_grid_shape (y m : Nat) (h1 : 1 ≤ m) (h2 : m ≤ 12) :
    (month_grid y m).length = 6 ∧
    (∀ r ∈ month_grid y m, r.length = 7) ∧
    (month_grid y m).flatten.countP Option.isSome = daysInMonth y m ∧
    (month_grid y m).flatten.findIdx Option.isSome = isoWeekday y m 1 - 1 ∧
    isoWeekday y m 1 - 1 < 7 := by
  have hw := weekday_lt y m 1
  have hn := daysInMonth_bounds y m h1 h2
  have hiso : isoWeekday y m 1 - 1 = weekday y m 1 := by
    unfold isoWeekday; omega
  have hg := gridOf_bounded (weekday y m 1) hw (daysInMonth y m) (by omega) hn.1
  rw [month_grid, hiso]
  exact ⟨hg.1, hg.2.1, hg.2.2.1, hg.2.2.2, hw⟩

/-- Witness for C2 at October 2025. -/
theorem month_grid_shape_witness :
    (month_grid 2025 10).length = 6 ∧
    (∀ r ∈ month_grid 2025 10, r.length = 7) ∧
    (month_grid 2025 10).flatten.countP Option.isSome = daysInMonth 2025 10 ∧
    (month_grid 2025 10).flatten.findIdx Option.isSome = isoWeekday 2025 10 1 - 1 ∧
    isoWeekday 2025 10 1 - 1 < 7 :=
  month_grid_shape 2025 10 (by decide) (by decide)

/-- C8: for every valid (y, m), prev_month and next_month are mutually
inverse; next_month wraps (y, 12) to (y + 1, 1), prev_month wraps (y, 1)
to (y - 1, 12), and neither changes the year otherwise. -/
theorem prev_next_inverse (y m : Int) (h1 : 1 ≤ m) (h2 : m ≤ 12) :
    prev_month (next_month (y, m)) = (y, m) ∧
    next_month (prev_month (y, m)) = (y, m) ∧
    next_month (y, 12) = (y + 1, 1) ∧
    prev_month (y, 1) = (y - 1, 12) ∧
    (m ≠ 12 → next_month (y, m) = (y, m + 1)) ∧
    (m ≠ 1 → prev_month (y, m) = (y, m - 1)) := by
  refine ⟨?_, next_prev (y, m) ⟨h1, h2⟩, by simp [next_month], by simp [prev_month],
    fun h12 => by simp [next_month, h12], fun hone => by simp [prev_month, hone]⟩
  unfold next_month prev_month
  by_cases h12 : m = 12
  · simp [h12]
  · have hne : ¬(m + 1 = 1) := by omega
    simp [h12, hne]

/-- Witness for C8 at (2025, 12) and (2025, 1). -/
theorem prev_next_inverse_witness :
    prev_month (next_month (2025, 12)) = (2025, 12) ∧
    next_month (prev_month (2025, 1)) = (2025, 1) ∧
    next_month (2025, 12) = (2026, 1) ∧
    prev_month (2025, 1) = (2024, 12) :=
  ⟨(prev_next_inverse 2025 12 (by decide) (by decide)).1,
   (prev_next_inverse 2025 1 (by decide) (by decide)).2.1,
   (prev_next_inverse 2025 12 (by decide) (by decide)).2.2.1,
   (prev_next_inverse 2025 1 (by decide) (by decide)).2.2.2.1⟩

/-- C3: for every center month and grid shape with columns, rows ≥ 1, the
rebuilt month list has length columns*rows, every successive element is
next_month of the previous one, and the element at row-major index
(columns*rows - 1) / 2 is the center month. -/
theorem rebuild_month_list_spec (cy cm : Int) (cols rows : Nat)
    (hc : 1 ≤ cols) (hr : 1 ≤ rows) (h1 : 1 ≤ cm) (h2 : cm ≤ 12) :
    (rebuild_month_list cy cm cols rows).length = cols * rows ∧
    (∀ i : Nat, i + 1 < cols * rows →
      (rebuild_month_list cy cm cols rows)[i + 1]? =
        ((rebuild_month_list cy cm cols rows)[i]?).map next_month) ∧
    (rebuild_month_list cy cm cols rows)[(cols * rows - 1) / 2]? = some (cy, cm) := by
  have htot : 1 ≤ cols * rows := Nat.one_le_iff_ne_zero.mpr (by positivity)
  have hmb : (cols * rows - 1) / 2 < cols * rows := by omega
  refine ⟨?_, ?_, ?_⟩
  · rw [rebuild_month_list, monthListFrom_length]
  · intro i hi
    rw [rebuild_month_list, monthListFrom_getElem _ _ _ hi,
      monthListFrom_getElem _ _ _ (by omega), stepsFwd_succ_out]
    rfl
  · rw [rebuild_month_list, monthListFrom_getElem _ _ _ hmb,
      stepsBack_fwd (cy, cm) _ ⟨h1, h2⟩]

/-- Witness for C3 with center October 2025 in a 3 by 2 grid. -/
theorem rebuild_month_list_spec_witness :
    (rebuild_month_list 2025 10 3 2).length = 3 * 2 ∧
    (rebuild_month_list 2025 10 3 2)[3]? =
      ((rebuild_month_list 2025 10 3 2)[2]?).map next_month ∧
    (rebuild_month_list 2025 10 3 2)[(3 * 2 - 1) / 2]? = some (2025, 10) :=
  ⟨(rebuild_month_list_spec 2025 10 3 2 (by decide) (by decide) (by decide) (by decide)).1,
   (rebuild_month_list_spec 2025 10 3 2 (by decide) (by decide) (by decide)
     (by decide)).2.1 2 (by decide),
   (rebuild_month_list_spec 2025 10 3 2 (by decide) (by decide) (by decide)
     (by decide)).2.2⟩

/-- C9: a rebuild grows the panel pool to exactly max(previous length,
columns*rows); the pool length never decreases, neither in one step nor
across any sequence of rebuilds; rebuilding again with the same
(columns, rows) allocates no new slots; and every slot at an index at or
beyond columns*rows is hidden (gridded = false), not removed. -/
theorem panel_pool_spec (panels : List Panel) (total cols rows : Nat)
    (reqs : List Nat) :
    (rebuild_panels panels total).length = max panels.length total ∧
    panels.length ≤ (rebuild_panels panels total).length ∧
    (rebuild_panels (rebuild_panels panels (cols * rows)) (cols * rows)).length =
      (rebuild_panels panels (cols * rows)).length ∧
    (∀ i : Nat, total ≤ i → ∀ p : Panel,
      (rebuild_panels panels total)[i]? = some p → p.gridded = false) ∧
    panels.length ≤ (reqs.foldl rebuild_panels panels).length := by
  refine ⟨rebuild_panels_length panels total, ?_, ?_, ?_, ?_⟩
  · rw [rebuild_panels_length]; omega
  · rw [rebuild_panels_length, rebuild_panels_length]
    omega
  · intro i hi p hp
    rw [rebuild_panels, setGriddedFrom_getElem] at hp
    have : ¬(0 + i < total) := by omega
    rcases hx : (growPool panels total)[i]? with _ | q
    · rw [hx] at hp; exact Option.noConfusion hp
    · rw [hx] at hp
      simp only [Option.map_some'] at hp
      cases hp
      simp [this]
      omega
  · induction reqs generalizing panels with
    | nil => exact le_of_eq (by rw [List.foldl_nil])
    | cons t rest ih =>
      calc panels.length ≤ (rebuild_panels panels t).length := by
            rw [rebuild_panels_length]; omega
        _ ≤ ((t :: rest).foldl rebuild_panels panels).length := by
            simpa using ih (rebuild_panels panels t)

/-- Witness for C9 with a pool of 3 panels rebuilt at 1 by 2. -/
theorem panel_pool_spec_witness :
    (rebuild_panels [⟨true⟩, ⟨true⟩, ⟨true⟩] 2).length = max 3 2 ∧
    (2 ≤ (2 : Nat)) ∧
    ((rebuild_panels [⟨true⟩, ⟨true⟩, ⟨true⟩] 2)[2]? = some ⟨false⟩) ∧
    (∀ p : Panel, (rebuild_panels [⟨true⟩, ⟨true⟩, ⟨true⟩] 2)[2]? = some p →
      p.gridded = false) ∧
    (rebuild_panels (rebuild_panels [⟨true⟩, ⟨true⟩, ⟨true⟩] (1 * 2)) (1 * 2)).length =
      (rebuild_panels [⟨true⟩, ⟨true⟩, ⟨true⟩] (1 * 2)).length :=
  ⟨(panel_pool_spec [⟨true⟩, ⟨true⟩, ⟨true⟩] 2 1 2 []).1, by decide, by decide,
   (panel_pool_spec [⟨true⟩, ⟨true⟩, ⟨true⟩] 2 1 2 []).2.2.2.1 2 (by decide),
   (panel_pool_spec [⟨true⟩, ⟨true⟩, ⟨true⟩] 2 1 2 []).2.2.1⟩

theorem handle_resize_eq (s : ResizeState) :
    handle_resize s =
      if max 1 ((s.savedWidth - 24).fdiv s.monthWidth) ≠ s.gridCols ∨
         max 1 ((s.savedHeight - 50).fdiv s.monthHeight) ≠ s.gridRows then
        { s with gridCols := max 1 ((s.savedWidth - 24).fdiv s.monthWidth),
                 gridRows := max 1 ((s.savedHeight - 50).fdiv s.monthHeight),
                 savedGridCols := some (max 1 ((s.savedWidth - 24).fdiv s.monthWidth)),
                 savedGridRows := some (max 1 ((s.savedHeight - 50).fdiv s.monthHeight)),
                 rebuildCount := s.rebuildCount + 1,
                 persistCount := s.persistCount + 1 }
      else s := rfl

/-- C1 (amended): auto-fit computes columns = max(1, (width - 24) //
monthWidth) and rows = max(1, (height - 50) // monthHeight); with
monthWidth = 100, monthHeight = 150 the result (5, 2) arises at window
interior 544 by 390; and when the computed pair equals the current one
the handler changes nothing (no rebuild, no persist). -/
theorem handle_resize_spec (s : ResizeState) :
    (handle_resize s).gridCols = max 1 ((s.savedWidth - 24).fdiv s.monthWidth) ∧
    (handle_resize s).gridRows = max 1 ((s.savedHeight - 50).fdiv s.monthHeight) ∧
    (max 1 ((s.savedWidth - 24).fdiv s.monthWidth) = s.gridCols →
      max 1 ((s.savedHeight - 50).fdiv s.monthHeight) = s.gridRows →
      handle_resize s = s) ∧
    (s.monthWidth = 100 → s.monthHeight = 150 → s.savedWidth = 544 →
      s.savedHeight = 390 →
      (handle_resize s).gridCols = 5 ∧ (handle_resize s).gridRows = 2) := by
  refine ⟨?_, ?_, ?_, ?_⟩
  · rw [handle_resize_eq]
    split
    · rfl
    · next h =>
      push_neg at h
      exact h.1.symm
  · rw [handle_resize_eq]
    split
    · rfl
    · next h =>
      push_neg at h
      exact h.2.symm
  · intro hc hr
    rw [handle_resize_eq]
    split
    · next h => cases h with
      | inl h => exact absurd hc h
      | inr h => exact absurd hr h
    · rfl
  · intro hw hh hsw hsh
    rw [handle_resize_eq, hw, hh, hsw, hsh]
    have h5 : max 1 (((544 : Int) - 24).fdiv 100) = 5 := by decide
    have h2 : max 1 (((390 : Int) - 50).fdiv 150) = 2 := by decide
    rw [h5, h2]
    split
    · exact ⟨rfl, rfl⟩
    · next h =>
      push_neg at h
      rw [← h.1, ← h.2]
      exact ⟨rfl, rfl⟩

/-- Witness for C1 at interior 544 by 390 and at an unchanged pair. -/
theorem handle_resize_spec_witness :
    ((handle_resize ⟨544, 390, 100, 150, 3, 1, none, none, 0, 0⟩).gridCols = 5 ∧
     (handle_resize ⟨544, 390, 100, 150, 3, 1, none, none, 0, 0⟩).gridRows = 2) ∧
    handle_resize ⟨544, 390, 100, 150, 5, 2, some 5, some 2, 7, 7⟩ =
      ⟨544, 390, 100, 150, 5, 2, some 5, some 2, 7, 7⟩ :=
  ⟨(handle_resize_spec ⟨544, 390, 100, 150, 3, 1, none, none, 0, 0⟩).2.2.2
     rfl rfl rfl rfl,
   (handle_resize_spec ⟨544, 390, 100, 150, 5, 2, some 5, some 2, 7, 7⟩).2.2.1
     (by decide) (by decide)⟩

/-- Counterexample to C1 as stated: with monthWidth = 100, monthHeight =
150 and window interior 520 by 340 the code computes columns = 4 and
rows = 1, not columns = 5 and rows = 2. -/
theorem handle_resize_counterexample :
    ((handle_resize ⟨520, 340, 100, 150, 3, 1, none, none, 0, 0⟩).gridCols = 4 ∧
     (handle_resize ⟨520, 340, 100, 150, 3, 1, none, none, 0, 0⟩).gridRows = 1) ∧
    ¬((handle_resize ⟨520, 340, 100, 150, 3, 1, none, none, 0, 0⟩).gridCols = 5 ∧
      (handle_resize ⟨520, 340, 100, 150, 3, 1, none, none, 0, 0⟩).gridRows = 2) := by
  decide

/-- C4: holidays_for_year 2025 with only ch_ostermontag enabled yields
exactly one date, April 21 2025, which is Easter Sunday 2025 (April 20,
by the Gregorian algorithm) plus one day. -/
theorem ostermontag_2025 :
    holidays_for_year 2025 ["ch_ostermontag"] =
      [(⟨2025, 4, 21⟩, [("Ostermontag", "CH")])] ∧
    easter 2025 = ⟨2025, 4, 20⟩ ∧
    addDays (easter 2025) 1 = ⟨2025, 4, 21⟩ :=
  ⟨rfl, rfl, rfl⟩

theorem holidays_spring (y : Nat) :
    holidays_for_year y ["cn_spring_festival"] =
      (genFromTableMulti springFestivalTable 3 y).foldl
        (fun a d => addEntry a d ("Spring Festival", "CN")) [] := rfl

/-- C5: for every year in the 2024..2036 lookup table, the Spring
Festival query returns the run of 3 consecutive dates starting at the
table entry (for 2025: January 29, 30, 31); for every year outside the
table it returns the empty result. -/
theorem spring_festival_spec (y : Nat) :
    (2024 ≤ y → y ≤ 2036 →
      ∃ md : Nat × Nat, tableGet springFestivalTable y = some md ∧
        holidays_for_year y ["cn_spring_festival"] =
          [(⟨y, md.1, md.2⟩, [("Spring Festival", "CN")]),
           (succDay ⟨y, md.1, md.2⟩, [("Spring Festival", "CN")]),
           (succDay (succDay ⟨y, md.1, md.2⟩), [("Spring Festival", "CN")])]) ∧
    holidays_for_year 2025 ["cn_spring_festival"] =
      [(⟨2025, 1, 29⟩, [("Spring Festival", "CN")]),
       (⟨2025, 1, 30⟩, [("Spring Festival", "CN")]),
       (⟨2025, 1, 31⟩, [("Spring Festival", "CN")])] ∧
    (y < 2024 ∨ 2036 < y → holidays_for_year y ["cn_spring_festival"] = []) := by
  refine ⟨?_, by decide, ?_⟩
  · intro hlo hhi
    interval_cases y <;> exact ⟨_, rfl, by decide⟩
  · intro hout
    have hnone : tableGet springFestivalTable y = none := by
      have k0 : y ≠ 2024 := by omega
      have k1 : y ≠ 2025 := by omega
      have k2 : y ≠ 2026 := by omega
      have k3 : y ≠ 2027 := by omega
      have k4 : y ≠ 2028 := by omega
      have k5 : y ≠ 2029 := by omega
      have k6 : y ≠ 2030 := by omega
      have k7 : y ≠ 2031 := by omega
      have k8 : y ≠ 2032 := by omega
      have k9 : y ≠ 2033 := by omega
      have k10 : y ≠ 2034 := by omega
      have k11 : y ≠ 2035 := by omega
      have k12 : y ≠ 2036 := by omega
      simp [springFestivalTable, tableGet, k0, k1, k2, k3, k4, k5, k6, k7,
        k8, k9, k10, k11, k12]
    rw [holidays_spring, genFromTableMulti, hnone]
    rfl

/-- Witness for C5 at year 2025 (inside the table) and 2040 (outside). -/
theorem spring_festival_spec_witness :
    (∃ md : Nat × Nat, tableGet springFestivalTable 2025 = some md ∧
      holidays_for_year 2025 ["cn_spring_festival"] =
        [(⟨2025, md.1, md.2⟩, [("Spring Festival", "CN")]),
         (succDay ⟨2025, md.1, md.2⟩, [("Spring Festival", "CN")]),
         (succDay (succDay ⟨2025, md.1, md.2⟩), [("Spring Festival", "CN")])]) ∧
    holidays_for_year 2040 ["cn_spring_festival"] = [] :=
  ⟨(spring_festival_spec 2025).1 (by decide) (by decide),
   (spring_festival_spec 2040).2.2 (Or.inr (by decide))⟩

theorem rebuild_months_frame (s : AppState) :
    (rebuild_months s).selStart = s.selStart ∧
    (rebuild_months s).selEnd = s.selEnd ∧
    (rebuild_months s).dayMarkers = s.dayMarkers :=
  ⟨rfl, rfl, rfl⟩

theorem applyNav_frame (s : AppState) (op : NavOp) :
    (applyNav s op).selStart = s.selStart ∧
    (applyNav s op).selEnd = s.selEnd ∧
    (applyNav s op).dayMarkers = s.dayMarkers := by
  cases op <;> exact ⟨rfl, rfl, rfl⟩

theorem foldNav_frame (ops : List NavOp) (s : AppState) :
    (ops.foldl applyNav s).selStart = s.selStart ∧
    (ops.foldl applyNav s).selEnd = s.selEnd ∧
    (ops.foldl applyNav s).dayMarkers = s.dayMarkers := by
  induction ops generalizing s with
  | nil => exact ⟨rfl, rfl, rfl⟩
  | cons op rest ih =>
    have h1 := applyNav_frame s op
    have h2 := ih (applyNav s op)
    rw [List.foldl_cons]
    exact ⟨h2.1.trans h1.1, h2.2.1.trans h1.2.1, h2.2.2.trans h1.2.2⟩

/-- C10: every navigation operation, and every sequence of them, leaves
the selection endpoints and the day-marker map unchanged; go_today and
clear_selection reset the selection endpoints but still leave the day
markers alone. -/
theorem navigation_preserves_selection (s : AppState) (d : Int) (today : Date)
    (ops : List NavOp) :
    ((navigate s d).selStart = s.selStart ∧ (navigate s d).selEnd = s.selEnd ∧
      (navigate s d).dayMarkers = s.dayMarkers) ∧
    ((navigate_page s d).selStart = s.selStart ∧
      (navigate_page s d).selEnd = s.selEnd ∧
      (navigate_page s d).dayMarkers = s.dayMarkers) ∧
    ((navigate_year s d).selStart = s.selStart ∧
      (navigate_year s d).selEnd = s.selEnd ∧
      (navigate_year s d).dayMarkers = s.dayMarkers) ∧
    ((ops.foldl applyNav s).selStart = s.selStart ∧
      (ops.foldl applyNav s).selEnd = s.selEnd ∧
      (ops.foldl applyNav s).dayMarkers = s.dayMarkers) ∧
    ((go_today s today).selStart = none ∧ (go_today s today).selEnd = none ∧
      (go_today s today).dayMarkers = s.dayMarkers) ∧
    ((clear_selection s).selStart = none ∧ (clear_selection s).selEnd = none ∧
      (clear_selection s).dayMarkers = s.dayMarkers) :=
  ⟨⟨rfl, rfl, rfl⟩, ⟨rfl, rfl, rfl⟩, ⟨rfl, rfl, rfl⟩, foldNav_frame ops s,
   ⟨rfl, rfl, rfl⟩, ⟨rfl, rfl, rfl⟩⟩

theorem day_plural : " day" ++ "s" = " days" := rfl

theorem week_plural : " week" ++ "s" = " weeks" := rfl

theorem parts_eq (w d : Nat) (hwd : ¬(w = 0 ∧ d = 0)) :
    joinComma
      ((if w ≠ 0 then [toString w ++ " week" ++ (if w ≠ 1 then "s" else "")] else []) ++
       (if d ≠ 0 then [toString d ++ " day" ++ (if d ≠ 1 then "s" else "")] else [])) =
    (if w = 0 then toString d ++ (if d = 1 then " day" else " days")
     else if d = 0 then toString w ++ (if w = 1 then " week" else " weeks")
     else (toString w ++ (if w = 1 then " week" else " weeks")) ++ ", " ++
          (toString d ++ (if d = 1 then " day" else " days"))) := by
  by_cases hw : w = 0 <;> by_cases hd : d = 0 <;>
    by_cases hw1 : w = 1 <;> by_cases hd1 : d = 1 <;>
    simp_all [joinComma, String.append_assoc, day_plural, week_plural]

theorem footer_text_eq_spec (selStart selEnd : Option Date) (today : Date) :
    footer_text selStart selEnd today = footerSpecText selStart selEnd today := by
  unfold footer_text footerSpecText
  cases sel_range selStart selEnd with
  | none => rfl
  | some p =>
    obtain ⟨lo, hi⟩ := p
    by_cases he : lo = hi
    · simp [he]
    · dsimp only
      rw [if_neg he, if_neg he,
        parts_eq ((dateOrd hi - dateOrd lo + 1) / 7) ((dateOrd hi - dateOrd lo + 1) % 7)
          (by omega)]

/-- C6 (amended): when no range exists or low equals high the footer is
only the plain today string; otherwise it renders the range with
inclusive day count (high - low) + 1 decomposed by divmod into weeks and
days, omitting a zero clause and pluralizing exactly for counts other
than 1 (proved as equality with the case-by-case specification wording);
for low 2025-01-01 and high 2025-01-10 it contains the text
"10 days  (1 week, 3 days)" with the code's two spaces before the
parenthesis. -/
theorem footer_text_spec (selStart selEnd : Option Date) (today : Date) :
    footer_text selStart selEnd today = footerSpecText selStart selEnd today ∧
    (sel_range selStart selEnd = none →
      footer_text selStart selEnd today = "Today: " ++ fmtDMY today) ∧
    (∀ lo hi : Date, sel_range selStart selEnd = some (lo, hi) → lo = hi →
      footer_text selStart selEnd today = "Today: " ++ fmtDMY today) ∧
    strContains (footer_text (some ⟨2025, 1, 1⟩) (some ⟨2025, 1, 10⟩) ⟨2025, 10, 12⟩)
      "10 days  (1 week, 3 days)" = true := by
  refine ⟨footer_text_eq_spec selStart selEnd today, ?_, ?_, by decide⟩
  · intro h
    unfold footer_text
    rw [h]
  · intro lo hi h he
    unfold footer_text
    rw [h]
    dsimp only
    rw [if_pos he]

/-- Witness for C6 at a one-day selection and the 10-day selection. -/
theorem footer_text_spec_witness :
    footer_text (some ⟨2025, 1, 3⟩) (some ⟨2025, 1, 3⟩) ⟨2025, 10, 12⟩ =
      "Today: " ++ fmtDMY ⟨2025, 10, 12⟩ ∧
    strContains (footer_text (some ⟨2025, 1, 1⟩) (some ⟨2025, 1, 10⟩) ⟨2025, 10, 12⟩)
      "10 days  (1 week, 3 days)" = true :=
  ⟨(footer_text_spec (some ⟨2025, 1, 3⟩) (some ⟨2025, 1, 3⟩) ⟨2025, 10, 12⟩).2.2.1
     ⟨2025, 1, 3⟩ ⟨2025, 1, 3⟩ (by decide) rfl,
   (footer_text_spec none none ⟨2025, 10, 12⟩).2.2.2⟩

/-- Counterexample to C6 as stated: for the selection 2025-01-01 to
2025-01-10, the footer does not contain the single-spaced text
"10 days (1 week, 3 days)" — the code puts two spaces before the
parenthesis. -/
theorem footer_counterexample :
    strContains (footer_text (some ⟨2025, 1, 1⟩) (some ⟨2025, 1, 10⟩) ⟨2025, 10, 12⟩)
      "10 days (1 week, 3 days)" = false ∧
    footer_text (some ⟨2025, 1, 1⟩) (some ⟨2025, 1, 10⟩) ⟨2025, 10, 12⟩ =
      "01.01 → 10.01:  10 days  (1 week, 3 days)     Today: 12.10.2025" := by
  exact ⟨by decide, by decide⟩

/-- C7 (code evaluation at the failing input): load_settings drops a
well-typed stored marker_colors list — the returned record has no
marker_colors key at all — while a missing file and other well-typed
fields behave as documented. -/
theorem load_settings_drops_marker_colors :
    load_settings (some (.obj [("marker_colors",
        .arr [.str "#112233", .str "#445566"])])) = .ok settingsDefaults ∧
    (match load_settings (some (.obj [("marker_colors",
        .arr [.str "#112233", .str "#445566"])])) with
     | .ok kvs => dictGet kvs "marker_colors"
     | .error _ => none) = none ∧
    load_settings none = .ok settingsDefaults ∧
    load_settings (some (.obj [("dark_mode", .bool true),
        ("marker_colors", .arr [.str "#112233"])])) =
      .ok [("dark_mode", .bool true),
           ("window_width", .null),
           ("window_height", .null),
           ("grid_cols", .null),
           ("grid_rows", .null),
           ("holidays", .arr []),
           ("holiday_colors", .obj [("CH", .str "#FF0000"), ("DE", .str "#FFD700"),
                                    ("CN", .str "#4CAF50")])] :=
  ⟨rfl, rfl, rfl, rfl⟩

end MiniCal
